import Mathlib

/-!
Verification of the Quickie terminal code editor against its specification.

The development shallowly embeds the Python sources of the repository:
  - quickie/config.py          (Config store: load, save, set_color)
  - quickie/app.py             (WelcomeScreen: project-name validation, bootstrap)
  - quickie/main_window.py     (TerminalWidget, QuickOpenModal, MainScreen)
  - quickie/settings_screen.py (SettingsScreen.apply_colors)

Pure data is embedded as Lean structures; stateful methods become explicit
state-passing functions; the filesystem and subprocess environment are
explicit inputs.  Python dictionaries are embedded as association lists and
Python exceptions as Except or as explicit outcome constructors.
-/

namespace Quickie

/-- JSON values that occur in the Quickie configuration record.  The Python
fields are dynamically typed; the persisted record written by Config.save
contains only strings and booleans, so those two constructors suffice. -/
inductive JVal where
  | s (v : String)
  | b (v : Bool)
deriving DecidableEq

/-- Lookup in an association list keyed by strings.  Embeds Python dict
lookup (d.get(k) and k in d) for the dictionaries used by Quickie. -/
def lookupKey {α : Type} (k : String) : List (String × α) → Option α
  | [] => none
  | kv :: rest => if kv.1 = k then some kv.2 else lookupKey k rest

@[simp]
theorem lookupKey_nil {α : Type} {k : String} : lookupKey k ([] : List (String × α)) = none := rfl

@[simp]
theorem lookupKey_cons {α : Type} {k : String} {kv : String × α} {rest : List (String × α)} :
    lookupKey k (kv :: rest) = if kv.1 = k then some kv.2 else lookupKey k rest := rfl

/-- Configuration state: the ten settings fields of quickie/config.py
(the config_file path attribute is fixed and carried implicitly). -/
structure Config where
  border_title_align : JVal
  background_color : JVal
  textarea_bg_color : JVal
  terminal_bg_color : JVal
  accent_color : JVal
  editor_theme : JVal
  show_line_numbers : JVal
  soft_wrap : JVal
  clear_terminal_on_run : JVal
  auto_save_on_run : JVal
deriving DecidableEq

/-- Default configuration, from Config.__init__ in quickie/config.py. -/
def Config.defaults : Config where
  border_title_align := .s "right"
  background_color := .s "#1e1e2e"
  textarea_bg_color := .s "#2b2b3b"
  terminal_bg_color := .s "#1a1a28"
  accent_color := .s "#89b4fa"
  editor_theme := .s "monokai"
  show_line_numbers := .b true
  soft_wrap := .b false
  clear_terminal_on_run := .b false
  auto_save_on_run := .b true

/-- Possible states of the persisted config file as seen by Config.load:
the file may be missing, opening or reading it may raise IOError, its bytes
may fail JSON decoding, it may decode to a non-object JSON value (list,
string, number, ...), or it may decode to a JSON object, i.e. a record. -/
inductive ConfigFile where
  | missing
  | ioError
  | decodeError
  | nonObject
  | object (record : List (String × JVal))
deriving DecidableEq

/-- Embedding of Config.load (quickie/config.py lines 36-58).  The try
block catches exactly json.JSONDecodeError and IOError; a missing file is
skipped by the exists() guard.  When json.load yields a non-dict value,
data.get raises AttributeError, which matches neither handler and
propagates out of load: this is modelled by the Except.error result.  On a
record, every field is filled with record.get(key, default). -/
def Config.load (c : Config) : ConfigFile → Except String Config
  | .missing => .ok c
  | .ioError => .ok c
  | .decodeError => .ok c
  | .nonObject => .error "AttributeError"
  | .object data => .ok {
      border_title_align := (lookupKey "border_title_align" data).getD (.s "right")
      background_color := (lookupKey "background_color" data).getD (.s "#1e1e2e")
      textarea_bg_color := (lookupKey "textarea_bg_color" data).getD (.s "#2b2b3b")
      terminal_bg_color := (lookupKey "terminal_bg_color" data).getD (.s "#1a1a28")
      accent_color := (lookupKey "accent_color" data).getD (.s "#89b4fa")
      editor_theme := (lookupKey "editor_theme" data).getD (.s "monokai")
      show_line_numbers := (lookupKey "show_line_numbers" data).getD (.b true)
      soft_wrap := (lookupKey "soft_wrap" data).getD (.b false)
      clear_terminal_on_run := (lookupKey "clear_terminal_on_run" data).getD (.b false)
      auto_save_on_run := (lookupKey "auto_save_on_run" data).getD (.b true) }

/-- Embedding of Config.save (quickie/config.py lines 60-75): the record
serialized to the config file, with the exact key set and order of the
json.dump call. -/
def Config.save (c : Config) : List (String × JVal) :=
  [("border_title_align", c.border_title_align),
   ("background_color", c.background_color),
   ("textarea_bg_color", c.textarea_bg_color),
   ("terminal_bg_color", c.terminal_bg_color),
   ("accent_color", c.accent_color),
   ("editor_theme", c.editor_theme),
   ("show_line_numbers", c.show_line_numbers),
   ("soft_wrap", c.soft_wrap),
   ("clear_terminal_on_run", c.clear_terminal_on_run),
   ("auto_save_on_run", c.auto_save_on_run)]

/-- Embedding of Config.set_color (quickie/config.py lines 82-92): the if
chain selects the field; save() is called unconditionally at the end.  The
result pairs the new configuration with the record that save writes. -/
def Config.set_color (c : Config) (color_type color : String) : Config × List (String × JVal) :=
  let c2 : Config :=
    if color_type = "background" then { c with background_color := .s color }
    else if color_type = "textarea_bg" then { c with textarea_bg_color := .s color }
    else if color_type = "terminal_bg" then { c with terminal_bg_color := .s color }
    else if color_type = "accent" then { c with accent_color := .s color }
    else c
  (c2, Config.save c2)

/-- Color validation guard of SettingsScreen.apply_colors
(quickie/settings_screen.py line 202): the value is truthy, starts with a
hash sign and has total length 4 or 7. -/
def validColorInput (v : String) : Bool :=
  (!(v == "")) && (v.startsWith "#" && (v.length == 4 || v.length == 7))

/-- One iteration of the loop in SettingsScreen.apply_colors: call
Config.set_color when the guard accepts the value, otherwise skip it. -/
def applyColorIfValid (c : Config) (color_type color_value : String) : Config :=
  if validColorInput color_value then (Config.set_color c color_type color_value).1 else c

/-- Embedding of SettingsScreen.apply_colors (quickie/settings_screen.py
lines 185-205): the four submitted field values are processed in the fixed
order of the colors list. -/
def SettingsScreen.apply_colors (c : Config) (bg ta te ac : String) : Config :=
  List.foldl (fun acc p => applyColorIfValid acc p.1 p.2) c
    [("background", bg), ("textarea_bg", ta), ("terminal_bg", te), ("accent", ac)]

/-- Claim C2 (code bug witness): a persisted config file whose bytes are
valid JSON but not a JSON object (for example the file content [1, 2])
makes Config.load raise an uncaught AttributeError from data.get, instead
of falling back to defaults.  The claim says load never raises past the
load operation for any byte content whatsoever; the code contradicts its
own comment (the except handler catches only JSONDecodeError and IOError). -/
theorem config_load_nonObject_raises :
    Config.load Config.defaults ConfigFile.nonObject = Except.error "AttributeError" := rfl

/-- Claim C4: a save() followed by load() of the saved record restores
every one of the ten settings fields to its value before save(). -/
theorem config_save_load_roundTrip (c : Config) :
    Config.load c (ConfigFile.object (Config.save c)) = Except.ok c := by
  cases c
  rfl

/-- Claim C10: Config.set_color with a color_type outside the four known
names leaves every configuration field unchanged, yet still calls save()
and re-persists the whole unchanged record. -/
theorem set_color_unknown_type_frame (c : Config) (color_type color : String)
    (h1 : color_type ≠ "background") (h2 : color_type ≠ "textarea_bg")
    (h3 : color_type ≠ "terminal_bg") (h4 : color_type ≠ "accent") :
    Config.set_color c color_type color = (c, Config.save c) := by
  simp [Config.set_color, h1, h2, h3, h4]

/-- Witness for claim C10 at the concrete unknown color_type "border". -/
theorem set_color_unknown_type_frame_witness :
    Config.set_color Config.defaults "border" "#ffffff"
      = (Config.defaults, Config.save Config.defaults) :=
  set_color_unknown_type_frame Config.defaults "border" "#ffffff"
    (by decide) (by decide) (by decide) (by decide)

/-- Claim C7: in a batch of four color values submitted on the Settings
Screen, each of the four color fields is overwritten exactly when its
submitted value passes the hash-prefix and length 4-or-7 guard; invalid
values leave their field unchanged while valid values in the same batch
are still applied, and the six non-color fields are never touched. -/
theorem apply_colors_validation (c : Config) (bg ta te ac : String) :
    (SettingsScreen.apply_colors c bg ta te ac).background_color
      = (if validColorInput bg then JVal.s bg else c.background_color) ∧
    (SettingsScreen.apply_colors c bg ta te ac).textarea_bg_color
      = (if validColorInput ta then JVal.s ta else c.textarea_bg_color) ∧
    (SettingsScreen.apply_colors c bg ta te ac).terminal_bg_color
      = (if validColorInput te then JVal.s te else c.terminal_bg_color) ∧
    (SettingsScreen.apply_colors c bg ta te ac).accent_color
      = (if validColorInput ac then JVal.s ac else c.accent_color) ∧
    (SettingsScreen.apply_colors c bg ta te ac).border_title_align = c.border_title_align ∧
    (SettingsScreen.apply_colors c bg ta te ac).editor_theme = c.editor_theme ∧
    (SettingsScreen.apply_colors c bg ta te ac).show_line_numbers = c.show_line_numbers ∧
    (SettingsScreen.apply_colors c bg ta te ac).soft_wrap = c.soft_wrap ∧
    (SettingsScreen.apply_colors c bg ta te ac).clear_terminal_on_run = c.clear_terminal_on_run ∧
    (SettingsScreen.apply_colors c bg ta te ac).auto_save_on_run = c.auto_save_on_run := by
  cases hbg : validColorInput bg <;> cases hta : validColorInput ta <;>
    cases hte : validColorInput te <;> cases hac : validColorInput ac <;>
    simp [SettingsScreen.apply_colors, applyColorIfValid, Config.set_color, hbg, hta, hte, hac]

/-! ## Terminal Pane (TerminalWidget in quickie/main_window.py) -/

/-- ASCII whitespace characters stripped by the Python str.strip method
(Python additionally strips non-ASCII Unicode whitespace, which does not
occur in the inputs considered here). -/
def pyWhitespace (c : Char) : Bool :=
  c == ' ' || c == '\t' || c == '\n' || c == '\r' || c == '\x0b' || c == '\x0c'

/-- Embedding of the Python str.strip() method: remove leading and
trailing whitespace. -/
def pyStrip (s : String) : String :=
  String.mk (((s.data.dropWhile pyWhitespace).reverse.dropWhile pyWhitespace).reverse)

/-- Helper for pySplitNl: the accumulator holds the current segment in
reverse order. -/
def splitNlAux : List Char → List Char → List String
  | acc, [] => [String.mk acc.reverse]
  | acc, c :: rest =>
      if c == '\n' then String.mk acc.reverse :: splitNlAux [] rest
      else splitNlAux (c :: acc) rest

/-- Embedding of the Python expression s.split("\n"): split on every
newline, keeping empty segments. -/
def pySplitNl (s : String) : List String :=
  splitNlAux [] s.data

/-- State of the TerminalWidget (quickie/main_window.py lines 24-80): the
RichLog scrollback entries and the command history list.  The on_mount
hook writes an initial prompt line, so a freshly mounted widget has
scrollback ["$ "]. -/
structure TerminalWidget where
  scrollback : List String
  command_history : List String
deriving DecidableEq

/-- Outcome of the awaited subprocess in execute_command: either it
completed and its merged stdout+stderr stream decoded to the given string,
or creating or communicating with the process raised an exception with the
given message. -/
inductive CmdOutcome where
  | completed (merged : String)
  | raised (msg : String)
deriving DecidableEq

/-- One RichLog.write call: append a single entry to the scrollback. -/
def TerminalWidget.write (t : TerminalWidget) (line : String) : TerminalWidget :=
  { t with scrollback := t.scrollback ++ [line] }

/-- Lines written by the body of execute_command (quickie/main_window.py
lines 62-78) before the final prompt: on completion the merged output is
stripped and, when nonempty, split on newlines; on an exception a single
line with the error text is written. -/
def TerminalWidget.outputLines : CmdOutcome → List String
  | .completed merged =>
      let output := pyStrip merged
      if output == "" then [] else pySplitNl output
  | .raised msg => ["Error: " ++ msg]

/-- Embedding of TerminalWidget.execute_command (quickie/main_window.py
lines 62-80): write each output line in order, then always write a fresh
prompt marker. -/
def TerminalWidget.execute_command (t : TerminalWidget) (res : CmdOutcome) : TerminalWidget :=
  ((TerminalWidget.outputLines res).foldl TerminalWidget.write t).write "$ "

/-- Embedding of TerminalWidget.run_command (quickie/main_window.py lines
54-60): append the command to the history, echo it into the scrollback,
then execute it (modelled with the execution already resolved to res). -/
def TerminalWidget.run_command (t : TerminalWidget) (command : String) (res : CmdOutcome) : TerminalWidget :=
  TerminalWidget.execute_command
    (TerminalWidget.write { t with command_history := t.command_history ++ [command] } command) res

/-- Modelled from the claim wording of C6, not from the source: splitting
the merged output into lines, without any stripping (a trailing newline
ends the last line rather than opening an empty one).  Used only to state
the counterexample comparing the claim against the code. -/
def specSplitLines (merged : String) : List String :=
  let parts := pySplitNl merged
  if parts.getLast? = some "" then parts.dropLast else parts

/-- Folding write over a list of lines appends exactly those lines to the
scrollback. -/
theorem foldl_write_scrollback (ls : List String) (t : TerminalWidget) :
    (ls.foldl TerminalWidget.write t).scrollback = t.scrollback ++ ls := by
  induction ls generalizing t with
  | nil => simp
  | cons l rest ih => simp [TerminalWidget.write, ih, List.append_assoc]

/-- Folding write over a list of lines leaves the command history
unchanged. -/
theorem foldl_write_history (ls : List String) (t : TerminalWidget) :
    (ls.foldl TerminalWidget.write t).command_history = t.command_history := by
  induction ls generalizing t with
  | nil => rfl
  | cons l rest ih => simp [TerminalWidget.write, ih]

/-- Claim C6 (counterexample): for a command whose merged output is
" hi\n", the code appends the stripped line "hi", not the actual output
line " hi"; so the scrollback does not receive each line of the merged
output split into lines, as the claim states. -/
theorem run_command_claim_cex :
    (TerminalWidget.run_command ⟨["$ "], []⟩ "cat notes.txt" (CmdOutcome.completed " hi\n")).scrollback
        = ["$ ", "cat notes.txt", "hi", "$ "] ∧
    specSplitLines " hi\n" = [" hi"] ∧
    (TerminalWidget.run_command ⟨["$ "], []⟩ "cat notes.txt" (CmdOutcome.completed " hi\n")).scrollback
        ≠ ["$ "] ++ ["cat notes.txt"] ++ specSplitLines " hi\n" ++ ["$ "] := by
  refine ⟨?_, ?_, ?_⟩ <;> decide

/-- Claim C6 (amended): for every submitted command the scrollback
receives, in order, the echoed command line, then each line of the merged
stdout+stderr output after stripping surrounding whitespace from the whole
output (split on newlines; nothing when the stripped output is empty; the
error text as a single line when execution raised), then a fresh prompt
marker, appended in every case; the command is also appended to the
history, and running echo hi (merged output "hi\n") appends exactly
"echo hi", "hi", "$ ". -/
theorem run_command_scrollback_shape (t : TerminalWidget) (cmd : String) (res : CmdOutcome) :
    (TerminalWidget.run_command t cmd res).scrollback
        = t.scrollback ++ [cmd] ++ TerminalWidget.outputLines res ++ ["$ "] ∧
    (TerminalWidget.run_command t cmd res).command_history = t.command_history ++ [cmd] ∧
    (∀ msg, TerminalWidget.outputLines (CmdOutcome.raised msg) = ["Error: " ++ msg]) ∧
    TerminalWidget.outputLines (CmdOutcome.completed "hi\n") = ["hi"] ∧
    (TerminalWidget.run_command ⟨["$ "], []⟩ "echo hi" (CmdOutcome.completed "hi\n")).scrollback
        = ["$ ", "echo hi", "hi", "$ "] := by
  refine ⟨?_, ?_, fun msg => rfl, by decide, by decide⟩
  · simp [TerminalWidget.run_command, TerminalWidget.execute_command, TerminalWidget.write,
      foldl_write_scrollback, List.append_assoc]
  · simp [TerminalWidget.run_command, TerminalWidget.execute_command, TerminalWidget.write,
      foldl_write_history]

/-! ## Welcome Screen (quickie/app.py) -/

/-- ASCII restriction of the Python regex word-character class.  The
pattern used by handle_project_input is compiled without re.ASCII, so the
full class is Unicode-aware; the embedding is therefore parametrized over
the word-character predicate, and this concrete instance gives its exact
behaviour on ASCII characters: letters, digits and underscore. -/
def asciiWordChar (c : Char) : Bool := c.isAlphanum || c == '_'

/-- Embedding of the test re.match applied to the name pattern (the
anchored regex accepting one or more word characters or hyphens) in
quickie/app.py line 44, parametrized over the word-character predicate w.
The dollar anchor of the pattern would also accept a trailing newline, but
handle_project_input only applies the pattern to stripped strings, which
never end in a newline, so the embedding omits that case. -/
def matchNameRegex (w : Char → Bool) (s : String) : Bool :=
  (!(s == "")) && s.data.all (fun c => w c || c == '-')

/-- Environment of one WelcomeScreen.setup_project run: whether the
project directory already exists, whether mkdir raises, whether launching
the initializer subprocess raises, and the initializer exit code. -/
structure BootstrapEnv where
  dirExists : Bool
  mkdirRaises : Bool
  initRaises : Bool
  initExitCode : Int
deriving DecidableEq

/-- Outward effect of WelcomeScreen.setup_project: either MainScreen is
pushed for the project, or an error is shown on the status label and the
input is re-enabled with no screen transition.  Status label text and the
uv invocation details are abstracted away. -/
inductive BootstrapResult where
  | pushedMain (projectName : String)
  | errorShown
deriving DecidableEq

/-- Embedding of WelcomeScreen.setup_project (quickie/app.py lines
49-86): mkdir failures are caught by the outer except; uv init is run only
when the directory did not previously exist, and a launch failure or a
nonzero exit code blocks the screen transition. -/
def WelcomeScreen.setup_project (env : BootstrapEnv) (project_name : String) : BootstrapResult :=
  if env.mkdirRaises then .errorShown
  else if !env.dirExists then
    if env.initRaises then .errorShown
    else if env.initExitCode != 0 then .errorShown
    else .pushedMain project_name
  else .pushedMain project_name

/-- Outcome of WelcomeScreen.handle_project_input: a rejection with the
status label message shown, or the bootstrap worker started and resolved
to the given result. -/
inductive HandleResult where
  | rejected (message : String)
  | bootstrapped (r : BootstrapResult)
deriving DecidableEq

/-- Embedding of WelcomeScreen.handle_project_input (quickie/app.py lines
36-47): strip the submitted value, reject the empty string, reject a
string not matching the name regex, otherwise run setup_project. -/
def WelcomeScreen.handle_project_input (w : Char → Bool) (env : BootstrapEnv) (value : String) : HandleResult :=
  let project_name := pyStrip value
  if project_name == "" then .rejected "Please enter a project name"
  else if !(matchNameRegex w project_name) then
    .rejected "Name can only contain letters, numbers, hyphens, underscores"
  else .bootstrapped (WelcomeScreen.setup_project env project_name)

/-- Claim C3 (counterexample): the submitted string " abc " contains
characters (spaces) outside the class of ASCII letters, digits,
underscore and hyphen, so the claim requires a rejection with no screen
transition; the code strips the input first and bootstraps the project,
transitioning to the Main Screen. -/
theorem handle_project_input_claim_cex :
    WelcomeScreen.handle_project_input asciiWordChar ⟨false, false, false, 0⟩ " abc "
        = HandleResult.bootstrapped (BootstrapResult.pushedMain "abc") ∧
    (" abc ").data.any (fun c => !(c.isAlphanum || c == '_' || c == '-')) = true := by
  refine ⟨?_, ?_⟩ <;> decide

/-- Claim C3 (amended): for every submitted string, after stripping
surrounding whitespace: an empty result is rejected with the enter-a-name
message; a nonempty result containing a character that is neither a word
character nor a hyphen is rejected with the invalid-characters message; a
nonempty result all of whose characters are word characters or hyphens is
bootstrapped; and the bootstrap pushes the Main Screen whenever directory
creation does not fail and either the directory pre-exists or the
initializer launches and exits with code zero. -/
theorem handle_project_input_checked (w : Char → Bool) (env : BootstrapEnv) (value : String) :
    (pyStrip value = "" →
        WelcomeScreen.handle_project_input w env value
          = HandleResult.rejected "Please enter a project name") ∧
    (pyStrip value ≠ "" → (∃ c ∈ (pyStrip value).data, ¬(w c = true ∨ c = '-')) →
        WelcomeScreen.handle_project_input w env value
          = HandleResult.rejected "Name can only contain letters, numbers, hyphens, underscores") ∧
    (pyStrip value ≠ "" → (∀ c ∈ (pyStrip value).data, w c = true ∨ c = '-') →
        WelcomeScreen.handle_project_input w env value
          = HandleResult.bootstrapped (WelcomeScreen.setup_project env (pyStrip value))) ∧
    (env.mkdirRaises = false →
      (env.dirExists = true ∨ (env.initRaises = false ∧ env.initExitCode = 0)) →
        ∀ n, WelcomeScreen.setup_project env n = BootstrapResult.pushedMain n) := by
  refine ⟨?_, ?_, ?_, ?_⟩
  · intro h
    simp [WelcomeScreen.handle_project_input, h]
  · intro h hc
    have hall : (pyStrip value).data.all (fun c => w c || c == '-') = false := by
      obtain ⟨c, hmem, hcp⟩ := hc
      rw [List.all_eq_false]
      refine ⟨c, hmem, ?_⟩
      simpa using hcp
    simp [WelcomeScreen.handle_project_input, matchNameRegex, h, hall]
  · intro h hc
    have hall : (pyStrip value).data.all (fun c => w c || c == '-') = true := by
      rw [List.all_eq_true]
      intro c hmem
      simpa using hc c hmem
    simp [WelcomeScreen.handle_project_input, matchNameRegex, h, hall]
  · intro hmk hd n
    rcases hd with h1 | ⟨h2, h3⟩
    · simp [WelcomeScreen.setup_project, hmk, h1]
    · simp [WelcomeScreen.setup_project, hmk, h2, h3]

/-- Witness for claim C3 at the concrete valid name "my-app" in an
environment where the directory is new, nothing raises and the
initializer exits with code zero. -/
theorem handle_project_input_checked_witness :
    (pyStrip "my-app" ≠ "") ∧
    WelcomeScreen.handle_project_input asciiWordChar ⟨false, false, false, 0⟩ "my-app"
      = HandleResult.bootstrapped
          (WelcomeScreen.setup_project ⟨false, false, false, 0⟩ (pyStrip "my-app")) :=
  ⟨by decide,
   (handle_project_input_checked asciiWordChar ⟨false, false, false, 0⟩ "my-app").2.2.1
     (by decide) (by decide)⟩

/-! ## Quick-Open Picker (QuickOpenModal in quickie/main_window.py) -/

/-- One enumerated project file as seen by the Quick-Open modal: its
filename (the final path component, file_path.name) and its path relative
to the project root (str of file_path.relative_to(project_path)). -/
structure FileEntry where
  name : String
  relPath : String
deriving DecidableEq

/-- Embedding of the Python substring test (needle in hay) on character
lists: the needle is a prefix of some suffix of the hay. -/
def containsSub (hay needle : List Char) : Bool :=
  match hay with
  | [] => needle.isEmpty
  | _ :: rest => needle.isPrefixOf hay || containsSub rest needle

/-- Correctness of containsSub: it decides the contiguous-sublist (infix)
relation. -/
theorem containsSub_iff_infix (hay needle : List Char) :
    containsSub hay needle = true ↔ needle <:+: hay := by
  induction hay with
  | nil =>
    rw [List.infix_nil]
    simp [containsSub, List.isEmpty_iff]
  | cons c rest ih =>
    rw [List.infix_cons_iff]
    simp [containsSub, Bool.or_eq_true, List.isPrefixOf_iff_prefix, ih]

/-- Embedding of the Python str.lower() method, mapping each character to
lower case (ASCII-exact; Python additionally lowers non-ASCII letters). -/
def pyToLower (s : String) : String := String.mk (s.data.map Char.toLower)

/-- Embedding of QuickOpenModal._get_project_files (quickie/main_window.py
lines 162-170) applied to the enumerated candidate set that survives the
hidden-file and excluded-directory filters: the files sorted ascending by
filename, the Python sorted call with the name as key. -/
def QuickOpenModal.getProjectFiles (enumerated : List FileEntry) : List FileEntry :=
  enumerated.mergeSort (fun a b => a.name ≤ b.name)

/-- Membership test of the loop body of QuickOpenModal._update_file_list
(quickie/main_window.py lines 177-182): an empty query shows every file,
otherwise the lowered query must occur in the lowered filename or in the
lowered relative path. -/
def fileShown (query : String) (f : FileEntry) : Bool :=
  (query == "") || containsSub (pyToLower f.name).data (pyToLower query).data
    || containsSub (pyToLower f.relPath).data (pyToLower query).data

/-- Embedding of QuickOpenModal._update_file_list (quickie/main_window.py
lines 172-186): the visible option list is the subsequence of all_files
passing the query test, in enumeration order. -/
def QuickOpenModal.update_file_list (all_files : List FileEntry) (query : String) : List FileEntry :=
  all_files.filter (fileShown query)

/-- Claim C5: for every enumerated file set, the loaded list is the
enumeration sorted ascending by filename (a permutation of the input,
sorted on the name field); the empty query shows that full sorted list;
for every non-empty query a file is visible exactly when it is in the list
and its lowered filename or lowered relative path contains the lowered
query as a contiguous substring; and the visible list is a subsequence of
the sorted list, preserving its order. -/
theorem quick_open_filter_spec (enumerated : List FileEntry) (query : String) :
    (QuickOpenModal.getProjectFiles enumerated).Perm enumerated ∧
    List.Sorted (fun a b : FileEntry => a.name ≤ b.name) (QuickOpenModal.getProjectFiles enumerated) ∧
    QuickOpenModal.update_file_list (QuickOpenModal.getProjectFiles enumerated) ""
      = QuickOpenModal.getProjectFiles enumerated ∧
    (query ≠ "" → ∀ f,
      f ∈ QuickOpenModal.update_file_list (QuickOpenModal.getProjectFiles enumerated) query ↔
        (f ∈ QuickOpenModal.getProjectFiles enumerated ∧
          ((pyToLower query).data <:+: (pyToLower f.name).data ∨
           (pyToLower query).data <:+: (pyToLower f.relPath).data))) ∧
    (QuickOpenModal.update_file_list (QuickOpenModal.getProjectFiles enumerated) query).Sublist
      (QuickOpenModal.getProjectFiles enumerated) := by
  refine ⟨List.mergeSort_perm enumerated _, ?_, ?_, ?_, List.filter_sublist _⟩
  · have h := @List.sorted_mergeSort FileEntry (fun a b : FileEntry => decide (a.name ≤ b.name))
      (fun a b c hab hbc =>
        decide_eq_true (le_trans (of_decide_eq_true hab) (of_decide_eq_true hbc)))
      (fun a b => by
        rw [Bool.or_eq_true]
        rcases le_total a.name b.name with h | h
        · exact Or.inl (decide_eq_true h)
        · exact Or.inr (decide_eq_true h))
      enumerated
    exact h.imp (fun hab => of_decide_eq_true hab)
  · apply List.filter_eq_self.mpr
    intro f hf
    simp [fileShown]
  · intro hq f
    rw [QuickOpenModal.update_file_list, List.mem_filter]
    have hs : (query == "") = false := by
      simpa using hq
    simp [fileShown, hs, Bool.or_eq_true, containsSub_iff_infix]

/-- Witness for claim C5 at the concrete query "a" over a two-file
enumeration. -/
theorem quick_open_filter_spec_witness :
    (("a" : String) ≠ "") ∧
    ((⟨"a.py", "a.py"⟩ : FileEntry) ∈ QuickOpenModal.update_file_list
        (QuickOpenModal.getProjectFiles [⟨"b.py", "b.py"⟩, ⟨"a.py", "a.py"⟩]) "a" ↔
      ((⟨"a.py", "a.py"⟩ : FileEntry) ∈ QuickOpenModal.getProjectFiles [⟨"b.py", "b.py"⟩, ⟨"a.py", "a.py"⟩] ∧
        ((pyToLower "a").data <:+: (pyToLower "a.py").data ∨
         (pyToLower "a").data <:+: (pyToLower "a.py").data))) :=
  ⟨by decide,
   (quick_open_filter_spec [⟨"b.py", "b.py"⟩, ⟨"a.py", "a.py"⟩] "a").2.2.2.1
     (by decide) ⟨"a.py", "a.py"⟩⟩

end Quickie

namespace Quickie

/-! ## Main Screen open-file cache (MainScreen in quickie/main_window.py) -/

/-- The OpenFile dataclass (quickie/main_window.py lines 17-22): a cached
file with its path, last-known in-memory content, and dirty flag. -/
structure OpenFile where
  path : String
  content : String
  modified : Bool
deriving DecidableEq

/-- Filesystem environment of the Main Screen: the existing files with
their on-disk text, the paths where read_text raises (unreadable file, in
which case open_file falls back to empty content), and the paths where
write_text raises (failed save). -/
structure Disk where
  files : List (String × String)
  readFails : List String
  writeFails : List String
deriving DecidableEq

/-- State of the MainScreen relevant to the open-file cache: the
open_files dictionary, the active_file option, and the live text of the
editor TextArea widget. -/
structure MainScreen where
  open_files : List (String × OpenFile)
  active_file : Option String
  editorText : String
deriving DecidableEq

/-- Initial MainScreen state from MainScreen.__init__ (quickie/main_window.py
lines 307-314): empty cache, no active file, empty editor. -/
def MainScreen.init : MainScreen := ⟨[], none, ""⟩

/-- In-place mutation of the OpenFile object stored under a key of the
open_files dictionary (Python: self.open_files[k].attr = value). -/
def updateEntry (l : List (String × OpenFile)) (k : String) (f : OpenFile → OpenFile) :
    List (String × OpenFile) :=
  l.map (fun kv => if kv.1 = k then (kv.1, f kv.2) else kv)

/-- The flush step at the top of MainScreen.open_file (quickie/main_window.py
lines 414-416): when there is an active file with a cache entry, persist
the live editor text into that entry. -/
def MainScreen.flushActive (s : MainScreen) : MainScreen :=
  match s.active_file with
  | some a =>
      if (lookupKey a s.open_files).isSome
      then { s with open_files := updateEntry s.open_files a (fun e => { e with content := s.editorText }) }
      else s
  | none => s

/-- Embedding of MainScreen.open_file (quickie/main_window.py lines
410-435): flush the current buffer, then reuse the cached content when
the path already has a cache entry, otherwise read from disk (a missing
file or a failed read_text gives empty content) and create a new entry;
finally set active_file and the editor text.  The Bool result records
whether a disk read was performed (read_text is only called when the path
has no cache entry and exists on disk). -/
def MainScreen.open_file (d : Disk) (s : MainScreen) (file_path : String) : MainScreen × Bool :=
  let s1 := s.flushActive
  match lookupKey file_path s1.open_files with
  | some entry => ({ s1 with active_file := some file_path, editorText := entry.content }, false)
  | none =>
    match lookupKey file_path d.files with
    | some text =>
        let content := if file_path ∈ d.readFails then "" else text
        ({ open_files := (file_path, ⟨file_path, content, false⟩) :: s1.open_files
           active_file := some file_path
           editorText := content }, true)
    | none =>
        ({ open_files := (file_path, ⟨file_path, "", false⟩) :: s1.open_files
           active_file := some file_path
           editorText := "" }, false)

/-- Disk effect of write_text: update the stored text of an existing
path, or create the file. -/
def Disk.write (d : Disk) (k v : String) : Disk :=
  if (lookupKey k d.files).isSome
  then { d with files := d.files.map (fun kv => if kv.1 = k then (k, v) else kv) }
  else { d with files := d.files ++ [(k, v)] }

/-- Embedding of MainScreen.action_save_file (quickie/main_window.py lines
455-468): with no active file only a warning is shown; a write_text
failure is caught and nothing is mutated; otherwise the disk is written
and the cache entry content and dirty flag are updated.  The unguarded
dictionary access after the write sits inside the same try, so a missing
cache entry would be caught after the disk write (modelled by the last
branch, which the cache invariant below shows unreachable from the
initial state). -/
def MainScreen.action_save_file (d : Disk) (s : MainScreen) : Disk × MainScreen :=
  match s.active_file with
  | none => (d, s)
  | some a =>
    if a ∈ d.writeFails then (d, s)
    else
      match lookupKey a s.open_files with
      | some _ =>
          let cache2 := updateEntry s.open_files a (fun e => { e with content := s.editorText, modified := false })
          (d.write a s.editorText, { s with open_files := cache2 })
      | none => (d.write a s.editorText, s)

/-- Embedding of the cache-relevant part of MainScreen.action_run_code
(quickie/main_window.py lines 470-489): with no active file only a
warning is shown; otherwise save runs first when auto_save_on_run is
enabled.  The terminal interaction (optional clear and the uv run command)
does not touch the open-file cache and is modelled by the Terminal Pane
section. -/
def MainScreen.action_run_code (auto_save_on_run : Bool) (d : Disk) (s : MainScreen) : Disk × MainScreen :=
  match s.active_file with
  | none => (d, s)
  | some _ => if auto_save_on_run then MainScreen.action_save_file d s else (d, s)

/-- Typing in the editor TextArea: replaces the live buffer text. -/
def MainScreen.setEditorText (s : MainScreen) (t : String) : MainScreen := { s with editorText := t }

/-- User-visible Main Screen operations that touch the open-file cache. -/
inductive Act where
  | openFile (p : String)
  | edit (t : String)
  | save
  | run

/-- One Main Screen operation applied to the disk and screen state. -/
def stepAct (auto : Bool) (w : Disk × MainScreen) : Act → Disk × MainScreen
  | .openFile p => (w.1, (MainScreen.open_file w.1 w.2 p).1)
  | .edit t => (w.1, w.2.setEditorText t)
  | .save => MainScreen.action_save_file w.1 w.2
  | .run => MainScreen.action_run_code auto w.1 w.2

/-- A sequence of Main Screen operations from a starting state. -/
def runActs (auto : Bool) (w : Disk × MainScreen) (acts : List Act) : Disk × MainScreen :=
  acts.foldl (stepAct auto) w

/-- Lookup after updating the same key applies the update to the found
entry. -/
theorem lookupKey_updateEntry_self (l : List (String × OpenFile)) (k : String) (f : OpenFile → OpenFile) :
    lookupKey k (updateEntry l k f) = (lookupKey k l).map f := by
  simp only [updateEntry]
  induction l with
  | nil => rfl
  | cons kv rest ih =>
    by_cases h : kv.1 = k <;> simp [h, ih]

/-- Lookup of a different key is unaffected by updateEntry. -/
theorem lookupKey_updateEntry_ne (l : List (String × OpenFile)) (k k2 : String)
    (f : OpenFile → OpenFile) (h : k2 ≠ k) :
    lookupKey k2 (updateEntry l k f) = lookupKey k2 l := by
  simp only [updateEntry]
  induction l with
  | nil => rfl
  | cons kv rest ih =>
    have hk : ¬(k = k2) := fun hh => h hh.symm
    by_cases h1 : kv.1 = k
    · simp [h1, hk, ih]
    · by_cases h2 : kv.1 = k2 <;> simp [h1, h2, ih, h]

/-- Presence of any key is unaffected by updateEntry. -/
theorem isSome_lookupKey_updateEntry (l : List (String × OpenFile)) (k k2 : String)
    (f : OpenFile → OpenFile) :
    (lookupKey k2 (updateEntry l k f)).isSome = (lookupKey k2 l).isSome := by
  by_cases h : k2 = k
  · subst h
    rw [lookupKey_updateEntry_self]
    cases lookupKey k2 l <;> rfl
  · rw [lookupKey_updateEntry_ne l k k2 f h]

/-- The key list of the cache is unaffected by updateEntry. -/
theorem fst_updateEntry (l : List (String × OpenFile)) (k : String) (f : OpenFile → OpenFile) :
    (updateEntry l k f).map Prod.fst = l.map Prod.fst := by
  simp only [updateEntry]
  induction l with
  | nil => rfl
  | cons kv rest ih =>
    by_cases h : kv.1 = k <;> simp [h, ih]

/-- Flushing does not change the active file. -/
theorem flushActive_active (s : MainScreen) : s.flushActive.active_file = s.active_file := by
  obtain ⟨fs, af, et⟩ := s
  cases af with
  | none => rfl
  | some a =>
    unfold MainScreen.flushActive
    by_cases h : (lookupKey a fs).isSome <;> simp [h]

/-- Flushing does not change which paths have cache entries. -/
theorem flushActive_isSome (s : MainScreen) (k : String) :
    (lookupKey k s.flushActive.open_files).isSome = (lookupKey k s.open_files).isSome := by
  obtain ⟨fs, af, et⟩ := s
  cases af with
  | none => rfl
  | some a =>
    unfold MainScreen.flushActive
    by_cases h : (lookupKey a fs).isSome
    · simp [h, isSome_lookupKey_updateEntry]
    · simp [h]

/-- After open_file the opened path is active, has a cache entry, and the
entry content equals the editor text. -/
theorem open_file_active (d : Disk) (s : MainScreen) (p : String) :
    (MainScreen.open_file d s p).1.active_file = some p ∧
    ∃ e, lookupKey p (MainScreen.open_file d s p).1.open_files = some e ∧
         e.content = (MainScreen.open_file d s p).1.editorText := by
  unfold MainScreen.open_file
  cases h : lookupKey p s.flushActive.open_files with
  | some entry =>
    refine ⟨?_, entry, ?_, ?_⟩ <;> simp [h]
  | none =>
    cases hd : lookupKey p d.files with
    | some text =>
      by_cases hr : p ∈ d.readFails
      · refine ⟨?_, ⟨p, "", false⟩, ?_, ?_⟩ <;> simp [h, hd, hr, lookupKey]
      · refine ⟨?_, ⟨p, text, false⟩, ?_, ?_⟩ <;> simp [h, hd, hr, lookupKey]
    | none =>
      refine ⟨?_, ⟨p, "", false⟩, ?_, ?_⟩ <;> simp [h, hd, lookupKey]

/-- Opening a path whose entry survives the flush takes the cached branch:
no disk read, cached content shown. -/
theorem open_file_cached (d : Disk) (s : MainScreen) (p : String) (e : OpenFile)
    (h : lookupKey p s.flushActive.open_files = some e) :
    MainScreen.open_file d s p
      = ({ s.flushActive with active_file := some p, editorText := e.content }, false) := by
  unfold MainScreen.open_file
  simp [h]

/-- Opening a path with no entry after the flush creates a fresh cache
entry; the disk is read exactly when the path exists. -/
theorem open_file_fresh (d : Disk) (s : MainScreen) (p : String)
    (h : lookupKey p s.flushActive.open_files = none) :
    ∃ c, MainScreen.open_file d s p
      = (⟨(p, ⟨p, c, false⟩) :: s.flushActive.open_files, some p, c⟩,
         (lookupKey p d.files).isSome) := by
  unfold MainScreen.open_file
  cases hd : lookupKey p d.files with
  | some text =>
    by_cases hr : p ∈ d.readFails
    · exact ⟨"", by simp [h, hd, hr]⟩
    · exact ⟨text, by simp [h, hd, hr]⟩
  | none => exact ⟨"", by simp [h, hd]⟩

/-- Claim C8: opening the same path twice in a row with no edit in
between performs no disk read on the second call, leaves the cached
content for that path identical to what the first call produced, and
shows the same editor text both times. -/
theorem open_file_idempotent (d : Disk) (s : MainScreen) (p : String) :
    (MainScreen.open_file d (MainScreen.open_file d s p).1 p).2 = false ∧
    lookupKey p (MainScreen.open_file d (MainScreen.open_file d s p).1 p).1.open_files
      = lookupKey p (MainScreen.open_file d s p).1.open_files ∧
    (MainScreen.open_file d (MainScreen.open_file d s p).1 p).1.editorText
      = (MainScreen.open_file d s p).1.editorText := by
  obtain ⟨hact, e, hlook, hcont⟩ := open_file_active d s p
  have hflush : lookupKey p (MainScreen.open_file d s p).1.flushActive.open_files = some e := by
    unfold MainScreen.flushActive
    rw [hact]
    simp [hlook, lookupKey_updateEntry_self, ← hcont]
  have hres := open_file_cached d (MainScreen.open_file d s p).1 p e hflush
  refine ⟨?_, ?_, ?_⟩
  · rw [hres]
  · rw [hres]
    simpa [hflush] using hlook.symm
  · rw [hres, hlook] at *
    rw [hres]
    exact hcont

/-- Opening any path from the initial state yields a one-entry cache with
that path active (the entry content depends on the disk). -/
theorem open_from_init (d : Disk) (p : String) :
    ∃ c, (MainScreen.open_file d MainScreen.init p).1 = ⟨[(p, ⟨p, c, false⟩)], some p, c⟩ := by
  have h : lookupKey p (MainScreen.init : MainScreen).flushActive.open_files = none := rfl
  obtain ⟨c, hc⟩ := open_file_fresh d MainScreen.init p h
  refine ⟨c, ?_⟩
  rw [hc]
  rfl

/-- Claim C1: after open(A), editing the live buffer to t, open(B) and
open(A) again with A distinct from B, the editor shows the edited text t
(whatever the disk holds for A), the cache entry of A holds t, and the
return to A performs no disk read: open_file flushes the live buffer into
the cache entry of the active file before switching, and a path that
already has a cache entry is served from the cache. -/
theorem open_file_switch_preserves_edits (d : Disk) (a b t : String) (hab : a ≠ b) :
    ((MainScreen.open_file d ((MainScreen.open_file d
        (((MainScreen.open_file d MainScreen.init a).1).setEditorText t) b).1) a).1.editorText = t) ∧
    (lookupKey a (MainScreen.open_file d ((MainScreen.open_file d
        (((MainScreen.open_file d MainScreen.init a).1).setEditorText t) b).1) a).1.open_files
      = some ⟨a, t, false⟩) ∧
    ((MainScreen.open_file d ((MainScreen.open_file d
        (((MainScreen.open_file d MainScreen.init a).1).setEditorText t) b).1) a).2 = false) := by
  have hba : ¬(b = a) := fun hh => hab hh.symm
  obtain ⟨c0, h1⟩ := open_from_init d a
  have h2 : ((MainScreen.open_file d MainScreen.init a).1).setEditorText t
      = ⟨[(a, ⟨a, c0, false⟩)], some a, t⟩ := by
    rw [MainScreen.setEditorText, h1]
  rw [h2]
  have hflush2 : (⟨[(a, ⟨a, c0, false⟩)], some a, t⟩ : MainScreen).flushActive
      = ⟨[(a, ⟨a, t, false⟩)], some a, t⟩ := by
    simp [MainScreen.flushActive, updateEntry, lookupKey]
  have hb : lookupKey b (⟨[(a, ⟨a, c0, false⟩)], some a, t⟩ : MainScreen).flushActive.open_files
      = none := by
    rw [hflush2]
    simp [lookupKey, hab]
  obtain ⟨c1, h3⟩ := open_file_fresh d _ b hb
  have h4 : (MainScreen.open_file d (⟨[(a, ⟨a, c0, false⟩)], some a, t⟩ : MainScreen) b).1
      = ⟨[(b, ⟨b, c1, false⟩), (a, ⟨a, t, false⟩)], some b, c1⟩ := by
    rw [h3, hflush2]
  rw [h4]
  have hflush3 : (⟨[(b, ⟨b, c1, false⟩), (a, ⟨a, t, false⟩)], some b, c1⟩ : MainScreen).flushActive
      = ⟨[(b, ⟨b, c1, false⟩), (a, ⟨a, t, false⟩)], some b, c1⟩ := by
    simp [MainScreen.flushActive, updateEntry, lookupKey, hab]
  have ha : lookupKey a
      (⟨[(b, ⟨b, c1, false⟩), (a, ⟨a, t, false⟩)], some b, c1⟩ : MainScreen).flushActive.open_files
      = some ⟨a, t, false⟩ := by
    rw [hflush3]
    simp [lookupKey, hba]
  have h5 := open_file_cached d _ a _ ha
  rw [h5]
  refine ⟨rfl, ?_, rfl⟩
  rw [hflush3]
  simp [lookupKey, hba]

/-- Witness for claim C1 at the concrete paths a.py and b.py with edit
text "edited" over an empty disk. -/
theorem open_file_switch_preserves_edits_witness :
    (("a.py" : String) ≠ "b.py") ∧
    (((MainScreen.open_file ⟨[], [], []⟩ ((MainScreen.open_file ⟨[], [], []⟩
        (((MainScreen.open_file ⟨[], [], []⟩ MainScreen.init "a.py").1).setEditorText "edited") "b.py").1)
        "a.py").1.editorText = "edited") ∧
    (lookupKey "a.py" (MainScreen.open_file ⟨[], [], []⟩ ((MainScreen.open_file ⟨[], [], []⟩
        (((MainScreen.open_file ⟨[], [], []⟩ MainScreen.init "a.py").1).setEditorText "edited") "b.py").1)
        "a.py").1.open_files = some ⟨"a.py", "edited", false⟩) ∧
    ((MainScreen.open_file ⟨[], [], []⟩ ((MainScreen.open_file ⟨[], [], []⟩
        (((MainScreen.open_file ⟨[], [], []⟩ MainScreen.init "a.py").1).setEditorText "edited") "b.py").1)
        "a.py").2 = false)) :=
  ⟨by decide, open_file_switch_preserves_edits ⟨[], [], []⟩ "a.py" "b.py" "edited" (by decide)⟩

/-- Cache invariant of the Main Screen: whenever a file is active it has
a cache entry. -/
def CacheInv (s : MainScreen) : Prop :=
  ∀ a, s.active_file = some a → (lookupKey a s.open_files).isSome = true

/-- Saving never adds or removes cache keys and keeps the active file. -/
theorem save_file_frame (d : Disk) (s : MainScreen) :
    (MainScreen.action_save_file d s).2.open_files.map Prod.fst = s.open_files.map Prod.fst ∧
    (MainScreen.action_save_file d s).2.active_file = s.active_file := by
  obtain ⟨fs, af, et⟩ := s
  cases af with
  | none => exact ⟨rfl, rfl⟩
  | some a =>
    unfold MainScreen.action_save_file
    by_cases hw : a ∈ d.writeFails
    · simp [hw]
    · cases hl : lookupKey a fs with
      | some e => simp [hw, hl, fst_updateEntry]
      | none => simp [hw, hl]

/-- Running never adds or removes cache keys and keeps the active file. -/
theorem run_code_frame (auto : Bool) (d : Disk) (s : MainScreen) :
    (MainScreen.action_run_code auto d s).2.open_files.map Prod.fst = s.open_files.map Prod.fst ∧
    (MainScreen.action_run_code auto d s).2.active_file = s.active_file := by
  obtain ⟨fs, af, et⟩ := s
  cases auto with
  | false => cases af <;> simp [MainScreen.action_run_code]
  | true =>
    cases af with
    | none => simp [MainScreen.action_run_code]
    | some a =>
      have h := save_file_frame d ⟨fs, some a, et⟩
      simpa [MainScreen.action_run_code] using h

/-- A key has a cache entry exactly when it occurs in the key list. -/
theorem lookupKey_isSome_mem (k : String) (l : List (String × OpenFile)) :
    (lookupKey k l).isSome = true ↔ k ∈ l.map Prod.fst := by
  induction l with
  | nil => simp
  | cons kv rest ih =>
    by_cases h : kv.1 = k
    · simp [lookupKey, h]
    · have hk : ¬(k = kv.1) := fun hh => h hh.symm
      simp [lookupKey, h, hk, ih]

/-- Every Main Screen operation preserves the cache invariant. -/
theorem stepAct_cacheInv (auto : Bool) (w : Disk × MainScreen) (act : Act)
    (h : CacheInv w.2) : CacheInv (stepAct auto w act).2 := by
  cases act with
  | openFile p =>
    intro x hx
    obtain ⟨hact, e, hlook, _⟩ := open_file_active w.1 w.2 p
    have hx2 : (MainScreen.open_file w.1 w.2 p).1.active_file = some x := hx
    rw [hact] at hx2
    cases hx2
    show (lookupKey p (MainScreen.open_file w.1 w.2 p).1.open_files).isSome = true
    rw [hlook]
    rfl
  | edit t => exact fun x hx => h x hx
  | save =>
    intro x hx
    obtain ⟨hfst, hact⟩ := save_file_frame w.1 w.2
    have hx2 : w.2.active_file = some x := by rw [← hact]; exact hx
    have hmem := h x hx2
    rw [lookupKey_isSome_mem] at hmem ⊢
    show x ∈ (MainScreen.action_save_file w.1 w.2).2.open_files.map Prod.fst
    rw [hfst]
    exact hmem
  | run =>
    intro x hx
    obtain ⟨hfst, hact⟩ := run_code_frame auto w.1 w.2
    have hx2 : w.2.active_file = some x := by rw [← hact]; exact hx
    have hmem := h x hx2
    rw [lookupKey_isSome_mem] at hmem ⊢
    show x ∈ (MainScreen.action_run_code auto w.1 w.2).2.open_files.map Prod.fst
    rw [hfst]
    exact hmem

/-- The cache invariant holds along every sequence of operations from an
invariant-satisfying state. -/
theorem runActs_cacheInv (auto : Bool) (w : Disk × MainScreen) (acts : List Act)
    (h : CacheInv w.2) : CacheInv (runActs auto w acts).2 := by
  induction acts generalizing w with
  | nil => exact h
  | cons act rest ih => exact ih _ (stepAct_cacheInv auto w act h)

/-- Claim C9: initially active_file is none; after every open_file the
opened path is active and has a cache entry; save and run never add or
remove cache keys; and along every sequence of open, edit, save and run
operations from the initial state, an active file always has a cache
entry, so the unguarded cache accesses in save never miss. -/
theorem main_screen_cache_invariant :
    (MainScreen.init.active_file = none) ∧
    (∀ d s p, (MainScreen.open_file d s p).1.active_file = some p ∧
        (lookupKey p (MainScreen.open_file d s p).1.open_files).isSome = true) ∧
    (∀ d s, (MainScreen.action_save_file d s).2.open_files.map Prod.fst
        = s.open_files.map Prod.fst) ∧
    (∀ auto d s, (MainScreen.action_run_code auto d s).2.open_files.map Prod.fst
        = s.open_files.map Prod.fst) ∧
    (∀ auto d0 acts x,
        (runActs auto (d0, MainScreen.init) acts).2.active_file = some x →
        (lookupKey x (runActs auto (d0, MainScreen.init) acts).2.open_files).isSome = true) := by
  refine ⟨rfl, ?_, ?_, ?_, ?_⟩
  · intro d s p
    obtain ⟨hact, e, hlook, _⟩ := open_file_active d s p
    exact ⟨hact, by simp [hlook]⟩
  · intro d s
    exact (save_file_frame d s).1
  · intro auto d s
    exact (run_code_frame auto d s).1
  · intro auto d0 acts
    exact runActs_cacheInv auto (d0, MainScreen.init) acts (fun x hx => Option.noConfusion hx)

/-- Witness for claim C9 on the concrete sequence open main.py, edit,
save, run with auto-save enabled over an empty disk. -/
theorem main_screen_cache_invariant_witness :
    ((runActs true (⟨[], [], []⟩, MainScreen.init)
        [Act.openFile "main.py", Act.edit "x", Act.save, Act.run]).2.active_file
      = some "main.py") ∧
    ((lookupKey "main.py" (runActs true (⟨[], [], []⟩, MainScreen.init)
        [Act.openFile "main.py", Act.edit "x", Act.save, Act.run]).2.open_files).isSome = true) :=
  ⟨by decide, main_screen_cache_invariant.2.2.2.2 true ⟨[], [], []⟩
      [Act.openFile "main.py", Act.edit "x", Act.save, Act.run] "main.py" (by decide)⟩

end Quickie
